import Mathlib

/-!
Verification development for the earthengine-ts package, a typed wrapper
around the Google Earth Engine JavaScript client.  The wrapped library and
the JSON.parse host primitive are modelled as oracles (function-valued
environment records); every call the wrapper makes into the wrapped library
is recorded in a trace.  All definitions are translated from the package
sources in src/client.ts, src/helpers/exports.ts and src/helpers/geometry.ts.
-/

namespace EarthEngineTS

/-- Result of an awaited step: a resolved value or a rejected error.
JavaScript error values are modelled as strings. -/
inductive Outcome (α : Type) where
  | ok (a : α)
  | err (e : String)
deriving DecidableEq, Repr

/-- Minimal model of a JavaScript runtime value, rich enough for the
truthiness and typeof checks performed by the package on untyped inputs. -/
inductive JsValue where
  | str (s : String)
  | num (n : Int)
  | bool (b : Bool)
  | null
  | obj
deriving DecidableEq, Repr

/-- JavaScript truthiness of a value. -/
def jsTruthy : JsValue → Bool
  | .str s => !s.isEmpty
  | .num n => n != 0
  | .bool b => b
  | .null => false
  | .obj => true

/-- JavaScript typeof of a value. -/
def jsTypeof : JsValue → String
  | .str _ => "string"
  | .num _ => "number"
  | .bool _ => "boolean"
  | .null => "object"
  | .obj => "object"

/-- JavaScript String(v) conversion. -/
def jsToString : JsValue → String
  | .str s => s
  | .num n => toString n
  | .bool b => if b then "true" else "false"
  | .null => "null"
  | .obj => "[object Object]"

/-- Model of the JavaScript String.prototype.trim host primitive: drops
leading and trailing whitespace characters. -/
def jsTrim (s : String) : String :=
  String.mk (((s.data.dropWhile Char.isWhitespace).reverse.dropWhile
    Char.isWhitespace).reverse)

/-- Truthiness of an optional string field: absent and the empty string are
falsy. -/
def optTruthyStr : Option String → Bool
  | some s => !s.isEmpty
  | none => false

/-- Truthiness of an optional numeric field: absent and zero are falsy. -/
def optTruthyInt : Option Int → Bool
  | some n => n != 0
  | none => false

/-- The ServiceAccountCredentials shape from src/types.ts; fields obtained
from parsed JSON may be absent at runtime, hence Option. -/
structure ServiceAccountCredentials where
  email : Option String
  privateKey : Option String
  projectId : Option String
deriving DecidableEq, Repr

/-- A parsed JSON object as far as parseServiceAccountKey reads it: the
three properties it extracts, each possibly absent. -/
structure SAKeyJson where
  client_email : Option String
  private_key : Option String
  project_id : Option String
deriving DecidableEq, Repr

/-- The privateKeyJson option: a JSON string or an already-parsed
credentials object. -/
inductive PrivateKeyJson where
  | str (s : String)
  | creds (c : ServiceAccountCredentials)
deriving DecidableEq, Repr

/-- JavaScript truthiness of a privateKeyJson value: an empty string is
falsy, any object is truthy. -/
def pkjTruthy : PrivateKeyJson → Bool
  | .str s => !s.isEmpty
  | .creds _ => true

/-- Truthiness of the optional privateKeyJson field. -/
def pkjTruthyOpt : Option PrivateKeyJson → Bool
  | some p => pkjTruthy p
  | none => false

/-- The credentials record handed to ee.data.authenticateViaPrivateKey. -/
structure CredRecord where
  client_email : Option String
  private_key : Option String
  project_id : Option String
deriving DecidableEq, Repr

/-- The EarthEngineInitOptions record.  tokenRetriever models the
caller-supplied async token function together with the outcome of awaiting
it; project and baseUrl are untyped at runtime, hence JsValue. -/
structure EarthEngineInitOptions where
  privateKeyJson : Option PrivateKeyJson := none
  email : Option String := none
  privateKey : Option String := none
  tokenRetriever : Option (Outcome String) := none
  project : Option JsValue := none
  baseUrl : Option JsValue := none

/-- The OAuthOptions record for initWithOAuth. -/
structure OAuthOptions where
  clientId : String
  scopes : Option (List String) := none
  project : Option JsValue := none

/-- Default Earth Engine OAuth scope (src/client.ts). -/
def DEFAULT_SCOPES : List String := ["https://www.googleapis.com/auth/earthengine"]

/-- One call made into the wrapped library by the client module.  initCall
carries the baseUrl and project arguments of ee dot initialize (the other
arguments are the constant null and the callbacks). -/
inductive WrappedCall where
  | authenticateViaPrivateKey (credentials : CredRecord)
  | authenticateViaOauth (clientId : String) (scopes : List String)
  | setAuthToken (clientId tokenType accessToken : String) (expiresIn : Int)
      (extraScopes : List String) (updateAuthLibrary : Bool)
  | initCall (baseUrl project : Option String)
deriving DecidableEq, Repr

/-- Whether a wrapped call is an authentication-phase call. -/
def WrappedCall.isAuthCall : WrappedCall → Bool
  | .authenticateViaPrivateKey _ => true
  | .authenticateViaOauth _ _ => true
  | .setAuthToken _ _ _ _ _ _ => true
  | .initCall _ _ => false

/-- Whether a wrapped call is the ee dot initialize call. -/
def WrappedCall.isInitCall : WrappedCall → Bool
  | .initCall _ _ => true
  | _ => false

/-- Oracle for the wrapped library: the outcome each callback-style entry
point delivers, as a function of the arguments the wrapper passes. -/
structure ClientEnv where
  authPKResult : CredRecord → Outcome Unit
  oauthResult : String → List String → Outcome Unit
  initResult : Option String → Option String → Outcome Unit

/-- parseServiceAccountKey from src/client.ts.  jsonParse is the host
runtime JSON.parse, modelled as an oracle returning the three extracted
properties, or none when the string is not valid JSON. -/
def parseServiceAccountKey (jsonParse : String → Option SAKeyJson) :
    PrivateKeyJson → Outcome ServiceAccountCredentials
  | .str s =>
    match jsonParse s with
    | some j => .ok ⟨j.client_email, j.private_key, j.project_id⟩
    | none => .err "Failed to parse service account JSON key"
  | .creds c => .ok c

/-- The project dot trim value assigned to project_id when the project
option is a truthy string (the guard `project && typeof project === 'string'`
in src/client.ts). -/
def projectTrimOpt : Option JsValue → Option String
  | some (.str s) => if s.isEmpty then none else some (jsTrim s)
  | _ => none

/-- The credentials record built in the email/privateKey branch of
initEarthEngine. -/
def pairCredentials (o : EarthEngineInitOptions) : CredRecord :=
  { client_email := o.email
    private_key := o.privateKey
    project_id := projectTrimOpt o.project }

/-- The credentials record built in the privateKeyJson branch of
initEarthEngine: project_id prefers a truthy string project option, then a
truthy projectId from the parsed key. -/
def jsonCredentials (o : EarthEngineInitOptions) (parsed : ServiceAccountCredentials) :
    CredRecord :=
  { client_email := parsed.email
    private_key := parsed.privateKey
    project_id :=
      match projectTrimOpt o.project with
      | some t => some t
      | none => if optTruthyStr parsed.projectId then parsed.projectId else none }

/-- Whether the email/privateKey pair branch of initEarthEngine is taken. -/
def usesPair (o : EarthEngineInitOptions) : Bool :=
  optTruthyStr o.email && optTruthyStr o.privateKey

/-- The tokenRetriever fallback of the authentication section: awaits the
retriever and, on success, calls ee.data.setAuthToken. -/
def authTokenStep (o : EarthEngineInitOptions) : List WrappedCall × Outcome Unit :=
  match o.tokenRetriever with
  | some (.ok token) => ([.setAuthToken "" "Bearer" token 3600 [] false], .ok ())
  | some (.err e) => ([], .err e)
  | none => ([], .ok ())

/-- The authentication section of initEarthEngine (src/client.ts lines
93-129): credential resolution and the single awaited authentication step.
Returns the wrapped calls made and the outcome. -/
def authStep (jsonParse : String → Option SAKeyJson) (env : ClientEnv)
    (o : EarthEngineInitOptions) : List WrappedCall × Outcome Unit :=
  if usesPair o then
    ([.authenticateViaPrivateKey (pairCredentials o)],
     env.authPKResult (pairCredentials o))
  else
    match o.privateKeyJson with
    | some pkj =>
      if pkjTruthy pkj then
        match parseServiceAccountKey jsonParse pkj with
        | .ok parsed =>
          ([.authenticateViaPrivateKey (jsonCredentials o parsed)],
           env.authPKResult (jsonCredentials o parsed))
        | .err e => ([], .err e)
      else authTokenStep o
    | none => authTokenStep o

/-- The project validation and normalisation inside the initialization
promise executor: truthy non-string projects reject before the wrapped call;
a truthy string project is trimmed and an empty trim becomes null. -/
def projectCheck : Option JsValue → Outcome (Option String)
  | some (.str s) =>
    if s.isEmpty then .ok none
    else .ok (if (jsTrim s).isEmpty then none else some (jsTrim s))
  | some v =>
    if jsTruthy v then .err ("Project must be a string, got " ++ jsTypeof v)
    else .ok none
  | none => .ok none

/-- The baseUrl argument of the wrapped initialization call: a truthy
baseUrl option is stringified and trimmed, a falsy or absent one is null. -/
def baseUrlValue : Option JsValue → Option String
  | some v => if jsTruthy v then some (jsTrim (jsToString v)) else none
  | none => none

/-- The initialization section of initEarthEngine (src/client.ts lines
132-151). -/
def initStep (env : ClientEnv) (o : EarthEngineInitOptions) :
    List WrappedCall × Outcome Unit :=
  match projectCheck o.project with
  | .err e => ([], .err e)
  | .ok projectValue =>
    ([.initCall (baseUrlValue o.baseUrl) projectValue],
     env.initResult (baseUrlValue o.baseUrl) projectValue)

/-- initEarthEngine from src/client.ts: the awaited authentication section
followed, only on success, by the awaited initialization section; the first
rejection is returned.  The trace lists the wrapped-library calls in order. -/
def initEarthEngine (jsonParse : String → Option SAKeyJson) (env : ClientEnv)
    (o : EarthEngineInitOptions) : List WrappedCall × Outcome Unit :=
  match authStep jsonParse env o with
  | (tr, .err e) => (tr, .err e)
  | (tr, .ok _) =>
    match initStep env o with
    | (tr2, r2) => (tr ++ tr2, r2)

/-- The project argument computed by initWithOAuth: a truthy string project
is trimmed (with no empty-to-null fallback), anything else becomes null. -/
def oauthProjectValue : Option JsValue → Option String
  | some (.str s) => if s.isEmpty then none else some (jsTrim s)
  | _ => none

/-- initWithOAuth from src/client.ts: the awaited OAuth authentication step
followed, only on success, by the awaited initialization step. -/
def initWithOAuth (env : ClientEnv) (o : OAuthOptions) :
    List WrappedCall × Outcome Unit :=
  match env.oauthResult o.clientId (o.scopes.getD DEFAULT_SCOPES) with
  | .err e => ([.authenticateViaOauth o.clientId (o.scopes.getD DEFAULT_SCOPES)], .err e)
  | .ok _ =>
    ([.authenticateViaOauth o.clientId (o.scopes.getD DEFAULT_SCOPES),
      .initCall none (oauthProjectValue o.project)],
     env.initResult none (oauthProjectValue o.project))

/-- State of the wrapped library property ee.data.getApiBaseUrl as
isInitialized observes it: absent (or not a function), or a function whose
call either returns a possibly-null string or throws. -/
inductive GetApiBaseUrl where
  | absent
  | fn (call : Outcome (Option String))
deriving DecidableEq, Repr

/-- The try-block body of isInitialized: the typeof guard short-circuits
when the property is not a function; otherwise the call is made and its
result compared against null, propagating any exception. -/
def isInitializedBody : GetApiBaseUrl → Outcome Bool
  | .absent => .ok false
  | .fn (.ok v) => .ok v.isSome
  | .fn (.err e) => .err e

/-- isInitialized from src/client.ts: the body wrapped in try/catch, any
exception mapped to false. -/
def isInitialized (st : GetApiBaseUrl) : Bool :=
  match isInitializedBody st with
  | .ok b => b
  | .err _ => false

/-- Opaque handle to an Earth Engine object owned by the wrapped library
(an image, a geometry, a format-options record, a returned task). -/
structure EEObj where
  id : Nat
deriving DecidableEq, Repr

/-- Truthiness of an optional object-valued field: objects are always
truthy, so only absence is falsy. -/
def optTruthyObj : Option EEObj → Bool
  | some _ => true
  | none => false

/-- The DriveExportOptions record from src/types.ts. -/
structure DriveExportOptions where
  description : String
  scale : Option Int := none
  crs : Option String := none
  maxPixels : Option Int := none
  region : Option EEObj := none
  folder : Option String := none
  fileFormat : Option String := none
  formatOptions : Option EEObj := none
deriving DecidableEq, Repr

/-- The CloudStorageExportOptions record from src/types.ts.  The
fileNamePfx field models the fileNamePrefix option. -/
structure CloudStorageExportOptions where
  description : String
  bucket : String
  fileNamePfx : Option String := none
  scale : Option Int := none
  crs : Option String := none
  maxPixels : Option Int := none
  region : Option EEObj := none
  fileFormat : Option String := none
  formatOptions : Option EEObj := none
deriving DecidableEq, Repr

/-- The additional options of exportImageToAsset (scale, crs, maxPixels,
region). -/
structure AssetExportOptions where
  scale : Option Int := none
  crs : Option String := none
  maxPixels : Option Int := none
  region : Option EEObj := none
deriving DecidableEq, Repr

/-- The flat option record handed to ee.batch.Export.image.toDrive; a field
holding none models a key absent from the JavaScript object. -/
structure DriveRecord where
  image : EEObj
  description : String
  fileFormat : String
  folder : Option String := none
  scale : Option Int := none
  crs : Option String := none
  maxPixels : Option Int := none
  region : Option EEObj := none
  formatOptions : Option EEObj := none
deriving DecidableEq, Repr

/-- The flat option record handed to ee.batch.Export.image.toCloudStorage. -/
structure CloudRecord where
  image : EEObj
  description : String
  bucket : String
  fileFormat : String
  fileNamePfx : Option String := none
  scale : Option Int := none
  crs : Option String := none
  maxPixels : Option Int := none
  region : Option EEObj := none
  formatOptions : Option EEObj := none
deriving DecidableEq, Repr

/-- The flat option record handed to ee.batch.Export.image.toAsset. -/
structure AssetRecord where
  image : EEObj
  description : String
  assetId : String
  scale : Option Int := none
  crs : Option String := none
  maxPixels : Option Int := none
  region : Option EEObj := none
deriving DecidableEq, Repr

/-- One call made into the wrapped library export API. -/
inductive ExportCall where
  | imageToDrive (options : DriveRecord)
  | imageToCloudStorage (options : CloudRecord)
  | imageToAsset (options : AssetRecord)
deriving DecidableEq, Repr

/-- Projection recovering the record of a toDrive call. -/
def driveRecordOf : ExportCall → Option DriveRecord
  | .imageToDrive r => some r
  | _ => none

/-- Projection recovering the record of a toAsset call. -/
def assetRecordOf : ExportCall → Option AssetRecord
  | .imageToAsset r => some r
  | _ => none

/-- Oracle for the wrapped library export entry points: the task object
each returns, as a function of the option record passed. -/
structure ExportEnv where
  imageToDrive : DriveRecord → EEObj
  imageToCloudStorage : CloudRecord → EEObj
  imageToAsset : AssetRecord → EEObj

/-- exportImageToDrive from src/helpers/exports.ts: the option record is
built field by field (base fields, then one conditional assignment per
truthy optional field) and passed to the wrapped toDrive call, whose result
is returned.  The call made is paired with the returned object. -/
def exportImageToDrive (env : ExportEnv) (image : EEObj)
    (options : DriveExportOptions) : ExportCall × EEObj :=
  let exportOptions : DriveRecord :=
    { image := image
      description := options.description
      fileFormat := options.fileFormat.getD "GeoTIFF" }
  let exportOptions :=
    if optTruthyStr options.folder then { exportOptions with folder := options.folder }
    else exportOptions
  let exportOptions :=
    if optTruthyInt options.scale then { exportOptions with scale := options.scale }
    else exportOptions
  let exportOptions :=
    if optTruthyStr options.crs then { exportOptions with crs := options.crs }
    else exportOptions
  let exportOptions :=
    if optTruthyInt options.maxPixels then { exportOptions with maxPixels := options.maxPixels }
    else exportOptions
  let exportOptions :=
    if optTruthyObj options.region then { exportOptions with region := options.region }
    else exportOptions
  let exportOptions :=
    if optTruthyObj options.formatOptions then
      { exportOptions with formatOptions := options.formatOptions }
    else exportOptions
  (.imageToDrive exportOptions, env.imageToDrive exportOptions)

/-- exportImageToCloudStorage from src/helpers/exports.ts. -/
def exportImageToCloudStorage (env : ExportEnv) (image : EEObj)
    (options : CloudStorageExportOptions) : ExportCall × EEObj :=
  let exportOptions : CloudRecord :=
    { image := image
      description := options.description
      bucket := options.bucket
      fileFormat := options.fileFormat.getD "GeoTIFF" }
  let exportOptions :=
    if optTruthyStr options.fileNamePfx then
      { exportOptions with fileNamePfx := options.fileNamePfx }
    else exportOptions
  let exportOptions :=
    if optTruthyInt options.scale then { exportOptions with scale := options.scale }
    else exportOptions
  let exportOptions :=
    if optTruthyStr options.crs then { exportOptions with crs := options.crs }
    else exportOptions
  let exportOptions :=
    if optTruthyInt options.maxPixels then { exportOptions with maxPixels := options.maxPixels }
    else exportOptions
  let exportOptions :=
    if optTruthyObj options.region then { exportOptions with region := options.region }
    else exportOptions
  let exportOptions :=
    if optTruthyObj options.formatOptions then
      { exportOptions with formatOptions := options.formatOptions }
    else exportOptions
  (.imageToCloudStorage exportOptions, env.imageToCloudStorage exportOptions)

/-- exportImageToAsset from src/helpers/exports.ts. -/
def exportImageToAsset (env : ExportEnv) (image : EEObj) (description assetId : String)
    (options : AssetExportOptions) : ExportCall × EEObj :=
  let exportOptions : AssetRecord :=
    { image := image, description := description, assetId := assetId }
  let exportOptions :=
    if optTruthyInt options.scale then { exportOptions with scale := options.scale }
    else exportOptions
  let exportOptions :=
    if optTruthyStr options.crs then { exportOptions with crs := options.crs }
    else exportOptions
  let exportOptions :=
    if optTruthyInt options.maxPixels then { exportOptions with maxPixels := options.maxPixels }
    else exportOptions
  let exportOptions :=
    if optTruthyObj options.region then { exportOptions with region := options.region }
    else exportOptions
  (.imageToAsset exportOptions, env.imageToAsset exportOptions)

/-- Direct description of the record exportImageToDrive forwards: base
fields always present (fileFormat defaulting to GeoTIFF), each optional
field kept only when truthy. -/
def driveExportRecord (image : EEObj) (o : DriveExportOptions) : DriveRecord :=
  { image := image
    description := o.description
    fileFormat := o.fileFormat.getD "GeoTIFF"
    folder := if optTruthyStr o.folder then o.folder else none
    scale := if optTruthyInt o.scale then o.scale else none
    crs := if optTruthyStr o.crs then o.crs else none
    maxPixels := if optTruthyInt o.maxPixels then o.maxPixels else none
    region := if optTruthyObj o.region then o.region else none
    formatOptions := if optTruthyObj o.formatOptions then o.formatOptions else none }

/-- Direct description of the record exportImageToCloudStorage forwards. -/
def cloudExportRecord (image : EEObj) (o : CloudStorageExportOptions) : CloudRecord :=
  { image := image
    description := o.description
    bucket := o.bucket
    fileFormat := o.fileFormat.getD "GeoTIFF"
    fileNamePfx := if optTruthyStr o.fileNamePfx then o.fileNamePfx else none
    scale := if optTruthyInt o.scale then o.scale else none
    crs := if optTruthyStr o.crs then o.crs else none
    maxPixels := if optTruthyInt o.maxPixels then o.maxPixels else none
    region := if optTruthyObj o.region then o.region else none
    formatOptions := if optTruthyObj o.formatOptions then o.formatOptions else none }

/-- Direct description of the record exportImageToAsset forwards. -/
def assetExportRecord (image : EEObj) (description assetId : String)
    (o : AssetExportOptions) : AssetRecord :=
  { image := image
    description := description
    assetId := assetId
    scale := if optTruthyInt o.scale then o.scale else none
    crs := if optTruthyStr o.crs then o.crs else none
    maxPixels := if optTruthyInt o.maxPixels then o.maxPixels else none
    region := if optTruthyObj o.region then o.region else none }

/-- One call made into the wrapped library geometry API. -/
inductive GeoCall where
  | point (coords : List Int)
deriving DecidableEq, Repr

/-- Oracle for the wrapped library geometry constructors. -/
structure GeoEnv where
  Point : List Int → EEObj

/-- createPoint from src/helpers/geometry.ts: the two coordinates are
tupled into one array and passed to ee.Geometry.Point, whose result is
returned. -/
def createPoint (env : GeoEnv) (longitude latitude : Int) : GeoCall × EEObj :=
  (.point [longitude, latitude], env.Point [longitude, latitude])

/-- Concrete JSON.parse oracle used by witnesses: parses only the empty
object, treats everything else as invalid JSON. -/
def jp0 : String → Option SAKeyJson :=
  fun s => if s = "{}" then some ⟨none, none, none⟩ else none

/-- Wrapped-library oracle where every callback-style call succeeds. -/
def env0 : ClientEnv :=
  { authPKResult := fun _ => .ok ()
    oauthResult := fun _ _ => .ok ()
    initResult := fun _ _ => .ok () }

/-- Wrapped-library oracle where authentication fails. -/
def envAuthErr : ClientEnv :=
  { authPKResult := fun _ => .err "auth boom"
    oauthResult := fun _ _ => .err "oauth boom"
    initResult := fun _ _ => .ok () }

/-- Wrapped-library oracle where initialization fails. -/
def envInitErr : ClientEnv :=
  { authPKResult := fun _ => .ok ()
    oauthResult := fun _ _ => .ok ()
    initResult := fun _ _ => .err "init boom" }

/-- Concrete export oracle used by witnesses and counterexamples. -/
def xenv0 : ExportEnv :=
  { imageToDrive := fun _ => ⟨100⟩
    imageToCloudStorage := fun _ => ⟨101⟩
    imageToAsset := fun _ => ⟨102⟩ }

/-- Concrete geometry oracle used by witnesses. -/
def genv0 : GeoEnv := { Point := fun _ => ⟨103⟩ }

/-- The sequential field-by-field construction in exportImageToDrive equals
the direct record description. -/
theorem exportImageToDrive_eq (env : ExportEnv) (image : EEObj)
    (o : DriveExportOptions) :
    exportImageToDrive env image o =
      (.imageToDrive (driveExportRecord image o),
       env.imageToDrive (driveExportRecord image o)) := by
  unfold exportImageToDrive driveExportRecord
  split_ifs <;> rfl

/-- The sequential construction in exportImageToCloudStorage equals the
direct record description. -/
theorem exportImageToCloudStorage_eq (env : ExportEnv) (image : EEObj)
    (o : CloudStorageExportOptions) :
    exportImageToCloudStorage env image o =
      (.imageToCloudStorage (cloudExportRecord image o),
       env.imageToCloudStorage (cloudExportRecord image o)) := by
  unfold exportImageToCloudStorage cloudExportRecord
  split_ifs <;> rfl

/-- The sequential construction in exportImageToAsset equals the direct
record description. -/
theorem exportImageToAsset_eq (env : ExportEnv) (image : EEObj)
    (description assetId : String) (o : AssetExportOptions) :
    exportImageToAsset env image description assetId o =
      (.imageToAsset (assetExportRecord image description assetId o),
       env.imageToAsset (assetExportRecord image description assetId o)) := by
  unfold exportImageToAsset assetExportRecord
  split_ifs <;> rfl

/-- Every call recorded by the token fallback is an authentication call. -/
theorem authTokenStep_trace_auth (o : EarthEngineInitOptions) :
    ∀ c ∈ (authTokenStep o).1, c.isAuthCall = true := by
  intro c hc
  unfold authTokenStep at hc
  split at hc
  · simp only [List.mem_singleton] at hc
    subst hc; rfl
  · simp at hc
  · simp at hc

/-- Every call recorded by the authentication section is an authentication
call. -/
theorem authStep_trace_auth (jp : String → Option SAKeyJson) (env : ClientEnv)
    (o : EarthEngineInitOptions) :
    ∀ c ∈ (authStep jp env o).1, c.isAuthCall = true := by
  intro c hc
  unfold authStep at hc
  split at hc
  · simp only [List.mem_singleton] at hc
    subst hc; rfl
  · split at hc
    · split at hc
      · split at hc
        · simp only [List.mem_singleton] at hc
          subst hc; rfl
        · simp at hc
      · exact authTokenStep_trace_auth o c hc
    · exact authTokenStep_trace_auth o c hc

/-- The authentication section records at most one wrapped call. -/
theorem authStep_trace_len (jp : String → Option SAKeyJson) (env : ClientEnv)
    (o : EarthEngineInitOptions) :
    (authStep jp env o).1.length ≤ 1 := by
  unfold authStep
  split
  · simp
  · split
    · split
      · split <;> simp
      · unfold authTokenStep; split <;> simp
    · unfold authTokenStep; split <;> simp

/-- Trace shape of the initialization section: empty on the project type
rejection, otherwise exactly one wrapped initialization call. -/
theorem initStep_trace (env : ClientEnv) (o : EarthEngineInitOptions) :
    (initStep env o).1 = [] ∨
      ∃ pv, (initStep env o).1 = [.initCall (baseUrlValue o.baseUrl) pv] := by
  unfold initStep
  split
  · exact Or.inl rfl
  · exact Or.inr ⟨_, rfl⟩

/-- When the authentication section rejects, initEarthEngine returns its
trace and that error. -/
theorem initEarthEngine_err (jp : String → Option SAKeyJson) (env : ClientEnv)
    (o : EarthEngineInitOptions) (e : String)
    (h : (authStep jp env o).2 = .err e) :
    initEarthEngine jp env o = ((authStep jp env o).1, .err e) := by
  have h2 : authStep jp env o = ((authStep jp env o).1, .err e) := by rw [← h]
  unfold initEarthEngine
  rw [h2]

/-- When the authentication section resolves, initEarthEngine appends the
initialization trace and returns the initialization outcome. -/
theorem initEarthEngine_ok (jp : String → Option SAKeyJson) (env : ClientEnv)
    (o : EarthEngineInitOptions)
    (h : (authStep jp env o).2 = .ok ()) :
    initEarthEngine jp env o =
      ((authStep jp env o).1 ++ (initStep env o).1, (initStep env o).2) := by
  have h2 : authStep jp env o = ((authStep jp env o).1, .ok ()) := by rw [← h]
  unfold initEarthEngine
  rw [h2]

/-- An authentication-phase call is not the wrapped initialization call. -/
theorem WrappedCall.auth_not_init (c : WrappedCall) (h : c.isAuthCall = true) :
    c.isInitCall = false := by
  cases c <;> simp_all [WrappedCall.isAuthCall, WrappedCall.isInitCall]

/-- Evaluation of the project check on a string project option. -/
theorem projectCheck_str (s : String) :
    projectCheck (some (.str s)) =
      .ok (if s.isEmpty then none
           else if (jsTrim s).isEmpty then none else some (jsTrim s)) := by
  have hu : projectCheck (some (.str s)) =
      if s.isEmpty = true then .ok none
      else .ok (if (jsTrim s).isEmpty = true then none else some (jsTrim s)) := rfl
  rw [hu]
  by_cases hse : s.isEmpty = true
  · rw [if_pos hse, if_pos hse]
  · rw [if_neg hse, if_neg hse]

/-- Evaluation of the project check on a truthy non-string project option. -/
theorem projectCheck_nonstring (v : JsValue) (ht : jsTruthy v = true)
    (hs : jsTypeof v ≠ "string") :
    projectCheck (some v) =
      .err ("Project must be a string, got " ++ jsTypeof v) := by
  cases v with
  | str s => exact absurd rfl hs
  | num n =>
    have hu : projectCheck (some (JsValue.num n)) =
        if jsTruthy (JsValue.num n) = true
        then .err ("Project must be a string, got " ++ jsTypeof (JsValue.num n))
        else .ok none := rfl
    rw [hu, if_pos ht]
  | bool b =>
    have hu : projectCheck (some (JsValue.bool b)) =
        if jsTruthy (JsValue.bool b) = true
        then .err ("Project must be a string, got " ++ jsTypeof (JsValue.bool b))
        else .ok none := rfl
    rw [hu, if_pos ht]
  | null => simp [jsTruthy] at ht
  | obj =>
    have hu : projectCheck (some JsValue.obj) =
        if jsTruthy JsValue.obj = true
        then .err ("Project must be a string, got " ++ jsTypeof JsValue.obj)
        else .ok none := rfl
    rw [hu, if_pos ht]

/-- C10: isInitialized is a total boolean check: it returns true exactly
when the getApiBaseUrl property is a function whose call returns a non-null
value, and it returns false whenever the call throws (the try/catch maps
every exception to false). -/
theorem c10_isInitialized_total (st : GetApiBaseUrl) :
    ((isInitialized st = true) ↔ ∃ v : String, st = .fn (.ok (some v))) ∧
    (∀ e : String, st = .fn (.err e) → isInitialized st = false) := by
  constructor
  · constructor
    · intro h
      match st with
      | .absent => simp [isInitialized, isInitializedBody] at h
      | .fn (.ok none) => simp [isInitialized, isInitializedBody] at h
      | .fn (.ok (some v)) => exact ⟨v, rfl⟩
      | .fn (.err e) => simp [isInitialized, isInitializedBody] at h
    · rintro ⟨v, rfl⟩
      rfl
  · rintro e rfl
    rfl

/-- Witness for C10 at a throwing getApiBaseUrl. -/
theorem c10_witness : isInitialized (.fn (.err "boom")) = false :=
  (c10_isInitialized_total (.fn (.err "boom"))).2 "boom" rfl

/-- Evaluation of the authentication section in the privateKeyJson branch:
with the pair branch not taken and a truthy privateKeyJson, the section
parses the key and authenticates with the resulting credentials. -/
theorem authStep_json_eq (jp : String → Option SAKeyJson) (env : ClientEnv)
    (o : EarthEngineInitOptions) (pkj : PrivateKeyJson)
    (hpair : usesPair o = false)
    (hjson : o.privateKeyJson = some pkj)
    (ht : pkjTruthy pkj = true) :
    authStep jp env o =
      (match parseServiceAccountKey jp pkj with
       | .ok parsed =>
         ([.authenticateViaPrivateKey (jsonCredentials o parsed)],
          env.authPKResult (jsonCredentials o parsed))
       | .err e => ([], .err e)) := by
  unfold authStep
  rw [if_neg (by simp [hpair]), hjson]
  dsimp only
  rw [if_pos ht]

/-- C4: when the selected credential input is a privateKeyJson string that
does not parse as JSON, initEarthEngine rejects with the fixed message and
makes no wrapped-library call at all. -/
theorem c4_invalid_json_rejects (jp : String → Option SAKeyJson) (env : ClientEnv)
    (o : EarthEngineInitOptions) (s : String)
    (hpair : usesPair o = false)
    (hjson : o.privateKeyJson = some (.str s))
    (hne : s.isEmpty = false)
    (hparse : jp s = none) :
    initEarthEngine jp env o =
      ([], .err "Failed to parse service account JSON key") := by
  have hpt : pkjTruthy (.str s) = true := by simp [pkjTruthy, hne]
  have ha : authStep jp env o =
      ([], .err "Failed to parse service account JSON key") := by
    rw [authStep_json_eq jp env o (.str s) hpair hjson hpt]
    have hu : parseServiceAccountKey jp (.str s) =
        match jp s with
        | some j => .ok ⟨j.client_email, j.private_key, j.project_id⟩
        | none => .err "Failed to parse service account JSON key" := rfl
    rw [hu, hparse]
  have h2 : (authStep jp env o).2 =
      .err "Failed to parse service account JSON key" := by rw [ha]
  rw [initEarthEngine_err jp env o _ h2, ha]

/-- Witness for C4 on a concrete non-JSON string. -/
theorem c4_witness :
    initEarthEngine jp0 env0 { privateKeyJson := some (.str "not json") } =
      ([], .err "Failed to parse service account JSON key") :=
  c4_invalid_json_rejects jp0 env0 { privateKeyJson := some (.str "not json") }
    "not json" (by decide) rfl (by decide) (by decide)

/-- C2: the trace of initEarthEngine is authentication calls followed by
initialization calls, each wrapped entry point is called at most once, and
an authentication failure means no initialization call is made and the
authentication error is returned unchanged. -/
theorem c2_auth_before_init (jp : String → Option SAKeyJson) (env : ClientEnv)
    (o : EarthEngineInitOptions) (e : String) :
    (∃ ta tb, (initEarthEngine jp env o).1 = ta ++ tb ∧
        (∀ c ∈ ta, c.isAuthCall = true) ∧ (∀ c ∈ tb, c.isInitCall = true)) ∧
    ((initEarthEngine jp env o).1.countP (fun c => c.isAuthCall) ≤ 1 ∧
     (initEarthEngine jp env o).1.countP (fun c => c.isInitCall) ≤ 1) ∧
    ((authStep jp env o).2 = .err e →
      (∀ c ∈ (initEarthEngine jp env o).1, c.isInitCall = false) ∧
      (initEarthEngine jp env o).2 = .err e) := by
  cases hres : (authStep jp env o).2 with
  | ok a =>
    cases a
    have hi := initEarthEngine_ok jp env o hres
    have hinit : ∀ c ∈ (initStep env o).1, c.isInitCall = true := by
      intro c hc
      rcases initStep_trace env o with h0 | ⟨pv, h1⟩
      · rw [h0] at hc; simp at hc
      · rw [h1] at hc
        simp only [List.mem_singleton] at hc
        subst hc; rfl
    refine ⟨⟨(authStep jp env o).1, (initStep env o).1, ?_, authStep_trace_auth jp env o, hinit⟩,
      ⟨?_, ?_⟩, ?_⟩
    · rw [hi]
    · rw [hi, List.countP_append]
      have h1 : (authStep jp env o).1.countP (fun c => c.isAuthCall) ≤ 1 :=
        le_trans (List.countP_le_length _) (authStep_trace_len jp env o)
      have h2 : (initStep env o).1.countP (fun c => c.isAuthCall) = 0 := by
        rw [List.countP_eq_zero]
        intro c hc
        rcases initStep_trace env o with h0 | ⟨pv, h3⟩
        · rw [h0] at hc; simp at hc
        · rw [h3] at hc
          simp only [List.mem_singleton] at hc
          subst hc
          simp [WrappedCall.isAuthCall]
      omega
    · rw [hi, List.countP_append]
      have h1 : (authStep jp env o).1.countP (fun c => c.isInitCall) = 0 := by
        rw [List.countP_eq_zero]
        intro c hc
        have := WrappedCall.auth_not_init c (authStep_trace_auth jp env o c hc)
        simp [this]
      have h2 : (initStep env o).1.countP (fun c => c.isInitCall) ≤ 1 := by
        rcases initStep_trace env o with h0 | ⟨pv, h3⟩
        · rw [h0]; simp
        · rw [h3]
          simp [List.countP_cons, WrappedCall.isInitCall]
      omega
    · intro h
      exact absurd h (by simp)
  | err e2 =>
    have hi := initEarthEngine_err jp env o e2 hres
    refine ⟨⟨(authStep jp env o).1, [], ?_, authStep_trace_auth jp env o, by simp⟩,
      ⟨?_, ?_⟩, ?_⟩
    · rw [hi, List.append_nil]
    · rw [hi]
      exact le_trans (List.countP_le_length _) (authStep_trace_len jp env o)
    · rw [hi]
      dsimp only
      have h1 : (authStep jp env o).1.countP (fun c => c.isInitCall) = 0 := by
        rw [List.countP_eq_zero]
        intro c hc
        have := WrappedCall.auth_not_init c (authStep_trace_auth jp env o c hc)
        simp [this]
      omega
    · intro h
      injection h with he
      subst he
      refine ⟨?_, by rw [hi]⟩
      intro c hc
      rw [hi] at hc
      exact WrappedCall.auth_not_init c (authStep_trace_auth jp env o c hc)

/-- Witness for C2: a failing authentication leaves the rejection
unchanged. -/
theorem c2_witness :
    (initEarthEngine jp0 envAuthErr { email := some "sa", privateKey := some "pk" }).2 =
      .err "auth boom" :=
  ((c2_auth_before_init jp0 envAuthErr { email := some "sa", privateKey := some "pk" }
    "auth boom").2.2 (by decide)).2

/-- Evaluation of the authentication section in the pair branch. -/
theorem authStep_pair_eq (jp : String → Option SAKeyJson) (env : ClientEnv)
    (o : EarthEngineInitOptions) (h : usesPair o = true) :
    authStep jp env o =
      ([.authenticateViaPrivateKey (pairCredentials o)],
       env.authPKResult (pairCredentials o)) := by
  unfold authStep
  rw [if_pos h]

/-- Evaluation of the authentication section when neither credential branch
is taken: it reduces to the tokenRetriever fallback. -/
theorem authStep_token_eq (jp : String → Option SAKeyJson) (env : ClientEnv)
    (o : EarthEngineInitOptions) (hpair : usesPair o = false)
    (hpkj : pkjTruthyOpt o.privateKeyJson = false) :
    authStep jp env o = authTokenStep o := by
  unfold authStep
  rw [if_neg (by simp [hpair])]
  cases hj : o.privateKeyJson with
  | none => rfl
  | some p =>
    dsimp only
    rw [if_neg]
    rw [hj] at hpkj
    simp [pkjTruthyOpt] at hpkj
    simp [hpkj]

/-- Counterexample to C1 as stated: with email and privateKey both present
(email being the empty string) and a bundled credential object also
present, the authentication call uses the bundled object, not the pair. -/
theorem c1_counterexample :
    (authStep jp0 env0
        { email := some "", privateKey := some "k",
          privateKeyJson := some (.creds ⟨some "sa@x", some "pk", none⟩) }).1 =
      [.authenticateViaPrivateKey ⟨some "sa@x", some "pk", none⟩] ∧
    (authStep jp0 env0
        { email := some "", privateKey := some "k",
          privateKeyJson := some (.creds ⟨some "sa@x", some "pk", none⟩) }).1 ≠
      [.authenticateViaPrivateKey ⟨some "", some "k", none⟩] := by
  decide

/-- C1 (amended): credentials are resolved in a fixed priority order over
truthy inputs: a truthy email/privateKey pair wins (the result depends only
on the pair credentials, so privateKeyJson and tokenRetriever are ignored);
otherwise a truthy privateKeyJson is parsed and used; otherwise a supplied
tokenRetriever token is installed; otherwise no authentication call is made
and initEarthEngine proceeds directly to the initialization section. -/
theorem c1_credential_priority (jp : String → Option SAKeyJson) (env : ClientEnv)
    (o : EarthEngineInitOptions) :
    (usesPair o = true →
      authStep jp env o =
        ([.authenticateViaPrivateKey (pairCredentials o)],
         env.authPKResult (pairCredentials o))) ∧
    (usesPair o = false → ∀ pkj, o.privateKeyJson = some pkj → pkjTruthy pkj = true →
      authStep jp env o =
        (match parseServiceAccountKey jp pkj with
         | .ok parsed =>
           ([.authenticateViaPrivateKey (jsonCredentials o parsed)],
            env.authPKResult (jsonCredentials o parsed))
         | .err e => ([], .err e))) ∧
    (usesPair o = false → pkjTruthyOpt o.privateKeyJson = false →
      ∀ t, o.tokenRetriever = some (.ok t) →
        authStep jp env o =
          ([.setAuthToken "" "Bearer" t 3600 [] false], .ok ())) ∧
    (usesPair o = false → pkjTruthyOpt o.privateKeyJson = false →
      o.tokenRetriever = none →
      authStep jp env o = ([], .ok ()) ∧
      initEarthEngine jp env o = initStep env o) := by
  refine ⟨authStep_pair_eq jp env o, ?_, ?_, ?_⟩
  · intro hpair pkj hjson ht
    exact authStep_json_eq jp env o pkj hpair hjson ht
  · intro hpair hpkj t htr
    rw [authStep_token_eq jp env o hpair hpkj]
    unfold authTokenStep
    rw [htr]
  · intro hpair hpkj htr
    have ha : authStep jp env o = ([], .ok ()) := by
      rw [authStep_token_eq jp env o hpair hpkj]
      unfold authTokenStep
      rw [htr]
    refine ⟨ha, ?_⟩
    have h2 : (authStep jp env o).2 = .ok () := by rw [ha]
    rw [initEarthEngine_ok jp env o h2, ha]
    rw [List.nil_append]

/-- Witness for C1 in the pair branch. -/
theorem c1_witness :
    authStep jp0 env0 { email := some "sa1", privateKey := some "pk1" } =
      ([.authenticateViaPrivateKey ⟨some "sa1", some "pk1", none⟩], .ok ()) := by
  rw [(c1_credential_priority jp0 env0
    { email := some "sa1", privateKey := some "pk1" }).1 (by decide)]
  decide

/-- C5: every error the wrapped library delivers to a failure callback is
returned as the rejection, unmodified: the private-key authentication
callback (pair branch and bundled-object branch), the initialization
callback of initEarthEngine, and both callbacks of initWithOAuth. -/
theorem c5_errors_forwarded (jp : String → Option SAKeyJson) (env : ClientEnv)
    (o : EarthEngineInitOptions) (oo : OAuthOptions) (e : String) :
    ((authStep jp env o).2 = .err e → (initEarthEngine jp env o).2 = .err e) ∧
    (usesPair o = true → env.authPKResult (pairCredentials o) = .err e →
      (initEarthEngine jp env o).2 = .err e) ∧
    (usesPair o = false → ∀ c, o.privateKeyJson = some (.creds c) →
      env.authPKResult (jsonCredentials o c) = .err e →
      (initEarthEngine jp env o).2 = .err e) ∧
    ((authStep jp env o).2 = .ok () → ∀ pv, projectCheck o.project = .ok pv →
      env.initResult (baseUrlValue o.baseUrl) pv = .err e →
      (initEarthEngine jp env o).2 = .err e) ∧
    (env.oauthResult oo.clientId (oo.scopes.getD DEFAULT_SCOPES) = .err e →
      (initWithOAuth env oo).2 = .err e) ∧
    (env.oauthResult oo.clientId (oo.scopes.getD DEFAULT_SCOPES) = .ok () →
      env.initResult none (oauthProjectValue oo.project) = .err e →
      (initWithOAuth env oo).2 = .err e) := by
  refine ⟨?_, ?_, ?_, ?_, ?_, ?_⟩
  · intro h
    rw [initEarthEngine_err jp env o e h]
  · intro hpair h
    have h2 : (authStep jp env o).2 = .err e := by
      rw [authStep_pair_eq jp env o hpair]
      exact h
    rw [initEarthEngine_err jp env o e h2]
  · intro hpair c hjson h
    have h2 : (authStep jp env o).2 = .err e := by
      rw [authStep_json_eq jp env o (.creds c) hpair hjson rfl]
      exact h
    rw [initEarthEngine_err jp env o e h2]
  · intro hok pv hpc h
    rw [initEarthEngine_ok jp env o hok]
    unfold initStep
    rw [hpc]
    exact h
  · intro h
    unfold initWithOAuth
    rw [h]
  · intro hok h
    unfold initWithOAuth
    rw [hok]
    exact h

/-- Witness for C5: a private-key authentication failure is returned
verbatim. -/
theorem c5_witness :
    (initEarthEngine jp0 envAuthErr { email := some "sa2", privateKey := some "pk2" }).2 =
      .err "auth boom" :=
  (c5_errors_forwarded jp0 envAuthErr { email := some "sa2", privateKey := some "pk2" }
    { clientId := "cid5" } "auth boom").2.1 (by decide) (by decide)

/-- Counterexample to C7 as stated: a present but falsy non-string project
(the number 0) does not reject; the wrapped initialization call is made. -/
theorem c7_counterexample :
    (initEarthEngine jp0 env0 { project := some (.num 0) }).2 ≠
      .err "Project must be a string, got number" ∧
    WrappedCall.initCall none none ∈ (initEarthEngine jp0 env0 { project := some (.num 0) }).1 := by
  decide

/-- C7 (amended): when the authentication section resolves and the project
option is a truthy non-string value, initEarthEngine rejects with the
type-check message and the wrapped initialization entry point is never
called. -/
theorem c7_project_type_rejection (jp : String → Option SAKeyJson)
    (env : ClientEnv) (o : EarthEngineInitOptions) (v : JsValue)
    (hok : (authStep jp env o).2 = .ok ())
    (hp : o.project = some v)
    (ht : jsTruthy v = true)
    (hs : jsTypeof v ≠ "string") :
    initEarthEngine jp env o =
      ((authStep jp env o).1,
       .err ("Project must be a string, got " ++ jsTypeof v)) ∧
    ∀ c ∈ (initEarthEngine jp env o).1, c.isInitCall = false := by
  have hpc : projectCheck o.project =
      .err ("Project must be a string, got " ++ jsTypeof v) := by
    rw [hp]
    exact projectCheck_nonstring v ht hs
  have hstep : initStep env o =
      ([], .err ("Project must be a string, got " ++ jsTypeof v)) := by
    unfold initStep
    rw [hpc]
  have hi := initEarthEngine_ok jp env o hok
  rw [hstep] at hi
  rw [List.append_nil] at hi
  refine ⟨hi, ?_⟩
  intro c hc
  rw [hi] at hc
  exact WrappedCall.auth_not_init c (authStep_trace_auth jp env o c hc)

/-- Witness for C7 on a boolean project. -/
theorem c7_witness :
    initEarthEngine jp0 env0 { project := some (.bool true) } =
      ([], .err "Project must be a string, got boolean") := by
  rw [(c7_project_type_rejection jp0 env0 { project := some (.bool true) }
    (.bool true) (by decide) rfl (by decide) (by decide)).1]
  decide

/-- Counterexample to C9 as stated: in initWithOAuth a whitespace-only
project string is passed to the wrapped initialization call as the empty
string, not as null. -/
theorem c9_counterexample :
    (initWithOAuth env0 { clientId := "cid", project := some (.str " ") }).1 =
      [.authenticateViaOauth "cid" DEFAULT_SCOPES, .initCall none (some "")] ∧
    WrappedCall.initCall none none ∉
      (initWithOAuth env0 { clientId := "cid", project := some (.str " ") }).1 := by
  decide

/-- C9 (amended): a string project is trimmed before being passed on, in
the initialization call of initEarthEngine (where a whitespace-only or
empty string becomes null) and in the credentials record; in initWithOAuth
the trimmed string is passed even when it is empty, and only an empty
project string becomes null. -/
theorem c9_project_trimming (jp : String → Option SAKeyJson) (env : ClientEnv)
    (o : EarthEngineInitOptions) (oo : OAuthOptions) (s : String) :
    (o.project = some (.str s) → ∀ bu pv,
      WrappedCall.initCall bu pv ∈ (initEarthEngine jp env o).1 →
      pv = if s.isEmpty then none
           else if (jsTrim s).isEmpty then none else some (jsTrim s)) ∧
    (o.project = some (.str s) → (pairCredentials o).project_id =
      if s.isEmpty then none else some (jsTrim s)) ∧
    (oo.project = some (.str s) → ∀ bu pv,
      WrappedCall.initCall bu pv ∈ (initWithOAuth env oo).1 →
      pv = if s.isEmpty then none else some (jsTrim s)) := by
  refine ⟨?_, ?_, ?_⟩
  · intro hp bu pv hmem
    have hstep : initStep env o =
        ([.initCall (baseUrlValue o.baseUrl)
            (if s.isEmpty then none
             else if (jsTrim s).isEmpty then none else some (jsTrim s))],
         env.initResult (baseUrlValue o.baseUrl)
            (if s.isEmpty then none
             else if (jsTrim s).isEmpty then none else some (jsTrim s))) := by
      unfold initStep
      rw [hp, projectCheck_str]
    cases hres : (authStep jp env o).2 with
    | err e2 =>
      rw [initEarthEngine_err jp env o e2 hres] at hmem
      have := authStep_trace_auth jp env o _ hmem
      simp [WrappedCall.isAuthCall] at this
    | ok a =>
      cases a
      rw [initEarthEngine_ok jp env o hres] at hmem
      dsimp only at hmem
      rw [List.mem_append] at hmem
      rcases hmem with hmem | hmem
      · have := authStep_trace_auth jp env o _ hmem
        simp [WrappedCall.isAuthCall] at this
      · rw [hstep] at hmem
        simp only [List.mem_singleton, WrappedCall.initCall.injEq] at hmem
        exact hmem.2
  · intro hp
    rw [show (pairCredentials o).project_id = projectTrimOpt o.project from rfl, hp]
    rfl
  · intro hp bu pv hmem
    unfold initWithOAuth at hmem
    cases hres : env.oauthResult oo.clientId (oo.scopes.getD DEFAULT_SCOPES) with
    | err e2 =>
      rw [hres] at hmem
      dsimp only at hmem
      simp at hmem
    | ok a =>
      cases a
      rw [hres] at hmem
      dsimp only at hmem
      simp only [List.mem_cons, List.mem_singleton] at hmem
      rcases hmem with h | h | h
      · exact absurd h (by simp)
      · injection h with h1 h2
        rw [h2, hp]
        rfl
      · simp at h

/-- Witness for C9 on a concrete padded project string. -/
theorem c9_witness :
    (some "p" : Option String) =
      (if (" p " : String).isEmpty then none
       else if (jsTrim " p ").isEmpty then none else some (jsTrim " p ")) :=
  (c9_project_trimming jp0 env0 { project := some (.str " p ") }
    { clientId := "cid9" } " p ").1 rfl none (some "p") (by decide)

/-- Counterexample to C3 as stated: the record exportImageToDrive forwards
is not the caller record unchanged; it contains a fileFormat value the
caller never supplied. -/
theorem c3_counterexample :
    (driveRecordOf (exportImageToDrive xenv0 ⟨3⟩ { description := "d" }).1).map
        DriveRecord.fileFormat ≠
      DriveExportOptions.fileFormat { description := "d" } ∧
    (driveRecordOf (exportImageToDrive xenv0 ⟨3⟩ { description := "d" }).1).map
        DriveRecord.fileFormat = some "GeoTIFF" := by
  decide

/-- C3 (amended): each helper makes a single wrapped-library call and
returns its result unchanged; the arguments are reshaped for typing only
(coordinates tupled into one array, export options flattened into a fresh
option record). -/
theorem c3_result_forwarding (genv : GeoEnv) (xenv : ExportEnv) (lon lat : Int)
    (img : EEObj) (o : DriveExportOptions) :
    createPoint genv lon lat = (.point [lon, lat], genv.Point [lon, lat]) ∧
    exportImageToDrive xenv img o =
      (.imageToDrive (driveExportRecord img o),
       xenv.imageToDrive (driveExportRecord img o)) :=
  ⟨rfl, exportImageToDrive_eq xenv img o⟩

/-- Counterexample to C6 as stated: a supplied optional field with a falsy
value (scale = 0) is dropped from the forwarded record instead of being
included under the same key with the same value. -/
theorem c6_counterexample :
    (driveRecordOf (exportImageToDrive xenv0 ⟨6⟩
        { description := "e", scale := some 0 }).1).bind DriveRecord.scale ≠
      DriveExportOptions.scale { description := "e", scale := some 0 } ∧
    (driveRecordOf (exportImageToDrive xenv0 ⟨6⟩
        { description := "e", scale := some 0 }).1).bind DriveRecord.scale = none ∧
    DriveExportOptions.scale { description := "e", scale := some 0 } = some 0 := by
  decide

/-- C6 (amended): the export helpers flatten the options into one flat
record passed to the wrapped export call: image, description and a
fileFormat defaulting to GeoTIFF are always present (plus bucket for cloud
storage), and every supplied optional field whose value is truthy is kept
under the same key with the same value. -/
theorem c6_export_record_contents (xenv : ExportEnv) (img : EEObj)
    (o : DriveExportOptions) (oc : CloudStorageExportOptions) :
    (exportImageToDrive xenv img o).1 = .imageToDrive (driveExportRecord img o) ∧
    (driveExportRecord img o).image = img ∧
    (driveExportRecord img o).description = o.description ∧
    (driveExportRecord img o).fileFormat = o.fileFormat.getD "GeoTIFF" ∧
    (optTruthyStr o.folder = true → (driveExportRecord img o).folder = o.folder) ∧
    (optTruthyInt o.scale = true → (driveExportRecord img o).scale = o.scale) ∧
    (optTruthyStr o.crs = true → (driveExportRecord img o).crs = o.crs) ∧
    (optTruthyInt o.maxPixels = true →
      (driveExportRecord img o).maxPixels = o.maxPixels) ∧
    (driveExportRecord img o).region = o.region ∧
    (optTruthyObj o.formatOptions = true →
      (driveExportRecord img o).formatOptions = o.formatOptions) ∧
    (exportImageToCloudStorage xenv img oc).1 =
      .imageToCloudStorage (cloudExportRecord img oc) ∧
    (cloudExportRecord img oc).bucket = oc.bucket ∧
    (cloudExportRecord img oc).fileFormat = oc.fileFormat.getD "GeoTIFF" := by
  refine ⟨by rw [exportImageToDrive_eq], rfl, rfl, rfl, ?_, ?_, ?_, ?_, ?_, ?_,
    by rw [exportImageToCloudStorage_eq], rfl, rfl⟩
  · intro h
    simp [driveExportRecord, h]
  · intro h
    simp [driveExportRecord, h]
  · intro h
    simp [driveExportRecord, h]
  · intro h
    simp [driveExportRecord, h]
  · cases hr : o.region <;> simp [driveExportRecord, optTruthyObj, hr]
  · intro h
    simp [driveExportRecord, h]

/-- Witness for C6: a truthy folder is kept under the same key. -/
theorem c6_witness :
    (driveExportRecord ⟨7⟩ { description := "w", folder := some "F" }).folder =
      some "F" :=
  (c6_export_record_contents xenv0 ⟨7⟩ { description := "w", folder := some "F" }
    { description := "wc", bucket := "b" }).2.2.2.2.1 (by decide)

/-- C8: a supplied optional export field with a falsy value (empty string,
zero) is omitted from the record forwarded to the wrapped export call,
because the helpers test truthiness, not presence. -/
theorem c8_falsy_fields_omitted (xenv : ExportEnv) (img : EEObj)
    (o : DriveExportOptions) (d a : String) (oa : AssetExportOptions) :
    (exportImageToDrive xenv img o).1 = .imageToDrive (driveExportRecord img o) ∧
    (optTruthyStr o.folder = false → (driveExportRecord img o).folder = none) ∧
    (optTruthyInt o.scale = false → (driveExportRecord img o).scale = none) ∧
    (optTruthyStr o.crs = false → (driveExportRecord img o).crs = none) ∧
    (optTruthyInt o.maxPixels = false → (driveExportRecord img o).maxPixels = none) ∧
    (optTruthyObj o.formatOptions = false →
      (driveExportRecord img o).formatOptions = none) ∧
    (exportImageToAsset xenv img d a oa).1 =
      .imageToAsset (assetExportRecord img d a oa) ∧
    (optTruthyInt oa.scale = false → (assetExportRecord img d a oa).scale = none) ∧
    (optTruthyInt oa.maxPixels = false →
      (assetExportRecord img d a oa).maxPixels = none) := by
  refine ⟨by rw [exportImageToDrive_eq], ?_, ?_, ?_, ?_, ?_,
    by rw [exportImageToAsset_eq], ?_, ?_⟩ <;>
    intro h <;> simp [driveExportRecord, assetExportRecord, h]

/-- Witness for C8: a supplied zero scale is omitted. -/
theorem c8_witness :
    (driveExportRecord ⟨8⟩
      { description := "x", folder := some "", scale := some 0 }).scale = none :=
  (c8_falsy_fields_omitted xenv0 ⟨8⟩
    { description := "x", folder := some "", scale := some 0 } "y" "z" {}).2.2.1
    (by decide)

end EarthEngineTS
